import Mathlib

/-!
Verification of the LinkedIn-scraper session scheduler
(`services/linked_navigator` and `utils/state_machine.py`).

Shallow embedding conventions:
* Timestamps are natural numbers (seconds).  The source stores ISO-8601
  strings produced by `datetime.now().isoformat()`; their lexicographic
  order coincides with chronological order, so `Nat` with the usual order
  is a faithful model of every comparison the source performs.
  `datetime.now()` is passed in explicitly as a `now : Nat` argument.
* Python dicts with string keys are modelled as association lists.
* `random.randint(a, b)` draws are passed in as explicit arguments; the
  theorems hypothesise the bounds `a ≤ r ≤ b` that `randint` guarantees.
* Publishing on the event bus is modelled by returning the list of events
  the call publishes, in order.
-/

/-- Events published by the queue manager (`EVENTS` in `scraper_config.py`,
restricted to the ones `queue_manager.py` publishes).
`queueUpdated action url` models `publish(EVENTS["QUEUE_UPDATED"], {"action": action, "url": url})`;
`statusEvent etype url status metadata` models the publish in `mark_profile_status`,
whose event type is `profile_scraped`, `profile_failed` or `queue_updated`
depending on the status. -/
inductive QueueEvent where
  | queueUpdated (action : String) (url : String)
  | statusEvent (etype : String) (url : String) (status : String)
      (metadata : Option (List (String × String)))
  deriving Repr, DecidableEq

/-- A queue entry, as written by `QueueManager.add_profile`
(`queue_manager.py`, lines 105-113). -/
structure Entry where
  url : String
  done : Bool
  urgent : Bool
  initiator : String
  created_at : Nat
  updated_at : Nat
  status : String
  metadata : List (String × String)
  deriving Repr, DecidableEq

/-- Model of `dict.update` / key assignment on an association list: replace the first
binding of `k`, or append a new one. -/
def set_key {β : Type} (d : List (String × β)) (k : String) (v : β) : List (String × β) :=
  match d with
  | [] => [(k, v)]
  | (k', v') :: rest => if k' = k then (k, v) :: rest else (k', v') :: set_key rest k v

/-- Model of `base.update(upd)` for Python dicts, on association lists. -/
def dict_update {β : Type} (base upd : List (String × β)) : List (String × β) :=
  upd.foldl (fun acc kv => set_key acc kv.1 kv.2) base

/-- Dict lookup `d[k]` (as an `Option`). -/
def get_key {β : Type} (d : List (String × β)) (k : String) : Option β :=
  match d.find? (fun kv => decide (kv.1 = k)) with
  | some kv => some kv.2
  | none => none

namespace QueueManager

/-- The in-place mutation `add_profile` performs on an entry already in the
queue whose `url` matches (`queue_manager.py`, lines 82-99):
if the entry is done it is marked for reprocessing (`done := false`,
`urgent := urgent or entry["urgent"]`, `initiator := initiator or entry["initiator"]`);
otherwise only an urgency upgrade (and `updated_at`) may be applied. -/
def update_existing (e : Entry) (urgent : Bool) (initiator : String) (now : Nat) : Entry :=
  if e.done then
    { e with
      done := false
      urgent := urgent || e.urgent
      initiator := if initiator = "" then e.initiator else initiator
      updated_at := now }
  else
    if urgent && !e.urgent then { e with urgent := true, updated_at := now } else e

/-- The `for entry in queue` loop of `add_profile`: find the first entry with
a matching url and update it in place; `none` when no entry matches. -/
def add_profile_loop (url : String) (urgent : Bool) (initiator : String) (now : Nat) :
    List Entry → Option (List Entry)
  | [] => none
  | e :: rest =>
    if e.url = url then
      some (update_existing e urgent initiator now :: rest)
    else
      match add_profile_loop url urgent initiator now rest with
      | some rest' => some (e :: rest')
      | none => none

/-- Model of `QueueManager.add_profile` (`queue_manager.py`, lines 66-118).
Returns (return value, new queue contents, published events). -/
def add_profile (q : List Entry) (url : String) (urgent : Bool) (initiator : String)
    (now : Nat) : Bool × List Entry × List QueueEvent :=
  match add_profile_loop url urgent initiator now q with
  | some q' => (true, q', [QueueEvent.queueUpdated "updated" url])
  | none =>
    let new_entry : Entry :=
      { url := url, done := false, urgent := urgent, initiator := initiator,
        created_at := now, updated_at := now, status := "queued", metadata := [] }
    (true, q ++ [new_entry], [QueueEvent.queueUpdated "added" url])

/-- The Python sort key `lambda x: (not x["urgent"], x["created_at"])`.
`False < True` in Python, so urgent entries get first component 0. -/
def entryKey (e : Entry) : Nat × Nat :=
  ((if e.urgent then 0 else 1), e.created_at)

/-- Lexicographic ≤ on sort keys — exactly how Python compares the tuples
`(not urgent, created_at)`. -/
def keyLe (a b : Nat × Nat) : Bool :=
  a.1 < b.1 || (a.1 = b.1 && a.2 ≤ b.2)

/-- Entry comparison used to model `sorted(filtered_queue, key=...)`. -/
def entryLe (a b : Entry) : Bool := keyLe (entryKey a) (entryKey b)

/-- Model of `QueueManager.get_next_profiles` (`queue_manager.py`, lines 120-141).
Python's `sorted` is a stable ascending sort, which is exactly
`List.mergeSort`. -/
def get_next_profiles (q : List Entry) (count : Nat) (include_done : Bool) : List Entry :=
  let filtered_queue := q.filter (fun e => include_done || !e.done)
  let sorted_queue := filtered_queue.mergeSort entryLe
  sorted_queue.take count

/-- The per-entry mutation of `mark_profile_status` (lines 158-169):
set status and `updated_at`, set `done := true` iff status is "completed",
and merge non-empty metadata into the entry's metadata dict. -/
def apply_status (e : Entry) (status : String) (metadata : Option (List (String × String)))
    (now : Nat) : Entry :=
  let e1 := { e with status := status, updated_at := now }
  let e2 := if status = "completed" then { e1 with done := true } else e1
  match metadata with
  | some m => if m.isEmpty then e2 else { e2 with metadata := dict_update e2.metadata m }
  | none => e2

/-- The `for entry in queue` loop of `mark_profile_status`. -/
def mark_loop (url : String) (status : String) (metadata : Option (List (String × String)))
    (now : Nat) : List Entry → Option (List Entry)
  | [] => none
  | e :: rest =>
    if e.url = url then
      some (apply_status e status metadata now :: rest)
    else
      match mark_loop url status metadata now rest with
      | some rest' => some (e :: rest')
      | none => none

/-- The event type chosen by `mark_profile_status` (lines 173-175). -/
def status_event_type (status : String) : String :=
  if status = "completed" then "profile_scraped"
  else if status = "failed" then "profile_failed"
  else "queue_updated"

/-- Model of `QueueManager.mark_profile_status` (`queue_manager.py`, lines 143-187).
Returns (return value, new queue contents, published events). -/
def mark_profile_status (q : List Entry) (url : String) (status : String)
    (metadata : Option (List (String × String))) (now : Nat) :
    Bool × List Entry × List QueueEvent :=
  match mark_loop url status metadata now q with
  | some q' =>
    (true, q', [QueueEvent.statusEvent (status_event_type status) url status metadata])
  | none => (false, q, [])

/-- The fields of `get_queue_stats` (`queue_manager.py`, lines 189-217)
used by the scheduler (`status_counts` and `last_updated` omitted: no claim
mentions them and no other component reads them). -/
structure QueueStats where
  total : Nat
  pending : Nat
  completed : Nat
  urgent : Nat
  deriving Repr, DecidableEq

/-- Model of `QueueManager.get_queue_stats`. -/
def get_queue_stats (q : List Entry) : QueueStats :=
  { total := q.length
    pending := (q.filter (fun e => !e.done)).length
    completed := (q.filter (fun e => e.done)).length
    urgent := (q.filter (fun e => e.urgent && !e.done)).length }

end QueueManager

/-- The system states (`STATES` in `scraper_config.py`). -/
inductive SysState where
  | inactive
  | waiting_for_active_hours
  | planning_next_session
  | session_starting
  | feed_browsing
  | profile_scraping
  | session_ending
  | cooldown_period
  | error
  | rate_limited
  | authentication_failure
  deriving Repr, DecidableEq

/-- Opaque state-data payload (a Python dict). -/
abbrev Payload := List (String × String)

/-- The statically defined adjacency table `self.valid_transitions`
(`state_machine.py`, lines 38-85).  States with no key in the dict
(`rate_limited`, `authentication_failure`) get the empty set, matching
`self.valid_transitions.get(self.current_state, set())`. -/
def valid_transitions : SysState → List SysState
  | .inactive => [.waiting_for_active_hours, .error]
  | .waiting_for_active_hours => [.planning_next_session, .inactive, .error]
  | .planning_next_session => [.session_starting, .waiting_for_active_hours, .inactive, .error]
  | .session_starting => [.feed_browsing, .inactive, .error]
  | .feed_browsing => [.profile_scraping, .session_ending, .error]
  | .profile_scraping => [.profile_scraping, .session_ending, .error]
  | .session_ending => [.cooldown_period, .inactive, .error]
  | .cooldown_period => [.planning_next_session, .waiting_for_active_hours, .inactive, .error]
  | .error => [.inactive, .waiting_for_active_hours, .planning_next_session]
  | .rate_limited => []
  | .authentication_failure => []

/-- One record of `self.state_history` (`_record_state_change`). -/
structure HistoryRecord where
  timestamp : Nat
  old_state : Option SysState
  new_state : SysState
  reason : String
  deriving Repr, DecidableEq

/-- The `SYSTEM_STATE_CHANGED` event payload published by `transition`
(`state_machine.py`, lines 121-127). -/
structure SMEvent where
  old_state : SysState
  new_state : SysState
  reason : String
  data : Option Payload
  timestamp : Nat
  deriving Repr, DecidableEq

/-- The mutable fields of `StateMachine` (`state_machine.py`). -/
structure StateMachine where
  current_state : SysState
  state_history : List HistoryRecord
  state_data : Payload
  deriving Repr, DecidableEq

namespace StateMachine

/-- Model of `StateMachine._record_state_change` (lines 132-150): append a record and
keep only the most recent 100 (`self.state_history[-100:]`). -/
def record_state_change (hist : List HistoryRecord) (new_state : SysState)
    (old_state : Option SysState) (reason : String) (now : Nat) : List HistoryRecord :=
  let h := hist ++ [{ timestamp := now, old_state := old_state,
                      new_state := new_state, reason := reason }]
  if h.length > 100 then h.drop (h.length - 100) else h

/-- Model of `StateMachine.__init__` (lines 24-88): state data starts as the empty
dict and the initial state is recorded in history. -/
def init (initial_state : SysState) (now : Nat) : StateMachine :=
  { current_state := initial_state
    state_history := record_state_change [] initial_state none "Initialization" now
    state_data := [] }

/-- Model of `StateMachine.transition` (lines 90-130).
Returns (return value, new machine, published `SYSTEM_STATE_CHANGED` events).
Note the guard `if data:` — the payload only replaces `state_data` when it is
truthy, i.e. not `None` and a non-empty dict. -/
def transition (sm : StateMachine) (new_state : SysState) (reason : String)
    (data : Option Payload) (now : Nat) : Bool × StateMachine × List SMEvent :=
  if new_state ∈ valid_transitions sm.current_state then
    let old_state := sm.current_state
    let new_data :=
      match data with
      | some d => if d.isEmpty then sm.state_data else d
      | none => sm.state_data
    (true,
     { current_state := new_state
       state_data := new_data
       state_history := record_state_change sm.state_history new_state (some old_state) reason now },
     [{ old_state := old_state, new_state := new_state, reason := reason,
        data := data, timestamp := now }])
  else
    (false, sm, [])

/-- Model of `StateMachine.get_current_state`. -/
def get_current_state (sm : StateMachine) : SysState := sm.current_state

/-- Model of `StateMachine.get_state_data` (returns a copy of the dict; copying is
the identity in a pure model). -/
def get_state_data (sm : StateMachine) : Payload := sm.state_data

/-- Model of `StateMachine.can_transition`. -/
def can_transition (sm : StateMachine) (state : SysState) : Bool :=
  state ∈ valid_transitions sm.current_state

end StateMachine

namespace Brain

/-- Model of `ACTIVE_HOURS = list(range(10, 21))` (`scraper_config.py`, line 30). -/
def ACTIVE_HOURS : List Nat := List.range' 10 11

/-- Model of `SESSIONS_PER_HOUR = 2` (`scraper_config.py`, line 31). -/
def SESSIONS_PER_HOUR : Nat := 2

/-- Model of `MINIMUM_SESSION_SPACING = 15 * 60` seconds (`scraper_config.py`, line 32). -/
def MINIMUM_SESSION_SPACING : Nat := 15 * 60

/-- Model of `dt.hour` for an absolute time in seconds. -/
def hourOfDay (t : Nat) : Nat := t % 86400 / 3600

/-- Index of the calendar day containing `t` (models `dt.date()`). -/
def dayOf (t : Nat) : Nat := t / 86400

/-- Model of `now.replace(hour := h, minute := 0, second := 0, microsecond := 0)`. -/
def replaceHour (t h : Nat) : Nat := dayOf t * 86400 + h * 3600

/-- A recorded session, as read back by `_calculate_next_session_time`:
only `start_time` and the possibly-absent `end_time` key are consulted. -/
structure SessionRecord where
  start_time : Nat
  end_time : Option Nat
  deriving Repr, DecidableEq

/-- The `memory["days"]` structure: the nested dict
`days[date_str][str(hour)]["sessions"]`, keyed here by (day, hour). -/
structure Memory where
  days : List ((Nat × Nat) × List SessionRecord)
  deriving Repr, DecidableEq

/-- Model of `memory["days"][date_str][str(hour)]["sessions"]` with the source's
`if date_str in memory["days"] and str(hour) in ...` guards: absent keys
behave as an empty session list. -/
def sessionsAt (mem : Memory) (d h : Nat) : List SessionRecord :=
  match mem.days.find? (fun kv => decide (kv.1 = (d, h))) with
  | some kv => kv.2
  | none => []

/-- The per-hour target of `_calculate_next_session_time`
(`brain.py`, lines 528-534). -/
def target_sessions (current_hour : Nat) (three_session_hour : Nat)
    (one_session_hours : List Nat) : Nat :=
  if current_hour = three_session_hour then 3
  else if current_hour ∈ one_session_hours then 1
  else SESSIONS_PER_HOUR

/-- The next-hour selection of `_calculate_next_session_time`
(`brain.py`, lines 537-555): hour chosen, and whether it is tomorrow.
`next_hour = current_hour + 1`; if not active, the first active hour
greater than `current_hour` (the loop over `sorted(ACTIVE_HOURS)`,
already sorted ascending here), else `min(ACTIVE_HOURS)` tomorrow. -/
def next_hour_slot (current_hour : Nat) : Nat × Bool :=
  let next_hour := current_hour + 1
  if next_hour ∉ ACTIVE_HOURS then
    match ACTIVE_HOURS.find? (fun h => decide (current_hour < h)) with
    | some h => (h, false)
    | none => ((ACTIVE_HOURS.min?).getD 0, true)
  else (next_hour, false)

/-- The `last_session_end` computation (`brain.py`, lines 563-571), memory
part: the last session recorded for this hour, if it has an `end_time`. -/
def mem_last_end (mem : Memory) (d h : Nat) : Option Nat :=
  match (sessionsAt mem d h).getLast? with
  | some s => s.end_time
  | none => none

/-- The full `last_session_end` computation: the current session's
`end_time` if present, else the memory's. -/
def last_session_end (current_session : Option SessionRecord) (mem : Memory)
    (d h : Nat) : Option Nat :=
  match current_session with
  | some s =>
    match s.end_time with
    | some e => some e
    | none => mem_last_end mem d h
  | none => mem_last_end mem d h

/-- Model of `Brain._calculate_next_session_time` (`brain.py`, lines 510-585).
`rand_offset` models `random.randint(1, 15 * 60)` and `rand_delay` models
`random.randint(30, 300)`; the special hours are the fields set by
`_configure_special_hours`. -/
def calculate_next_session_time (now : Nat) (mem : Memory)
    (current_session : Option SessionRecord) (three_session_hour : Nat)
    (one_session_hours : List Nat) (rand_offset rand_delay : Nat) : Nat :=
  let current_hour := hourOfDay now
  let d := dayOf now
  let sessions_this_hour := (sessionsAt mem d current_hour).length
  let target := target_sessions current_hour three_session_hour one_session_hours
  if sessions_this_hour ≥ target then
    let slot := next_hour_slot current_hour
    let next_time := replaceHour now slot.1 + (if slot.2 then 86400 else 0)
    next_time + rand_offset
  else
    match last_session_end current_session mem d current_hour with
    | some last_end =>
      let minimum_next_time := last_end + MINIMUM_SESSION_SPACING
      if now < minimum_next_time then minimum_next_time
      else now + rand_delay
    | none => now + rand_delay

/-- The Brain fields `stop` touches: the `running` flag and the
state machine.  The control-loop thread join is a no-op in a
sequential model. -/
structure BrainState where
  running : Bool
  sm : StateMachine
  deriving Repr, DecidableEq

/-- Model of `Brain.stop` (`brain.py`, lines 289-311).
Returns (return value, new brain state, published events).  Note that the
return value of the inner `transition` call is discarded by the source. -/
def stop (b : BrainState) (now : Nat) : Bool × BrainState × List SMEvent :=
  if !b.running then (false, b, [])
  else
    let b1 : BrainState := { b with running := false }
    if b1.sm.current_state ≠ .inactive then
      let r := b1.sm.transition .inactive "Brain stopped" none now
      (true, { b1 with sm := r.2.1 }, r.2.2)
    else (true, b1, [])

end Brain

namespace BatchProcessor

/-- Whitespace test for modelling Python's `str.strip()`. -/
def isSpaceChar (c : Char) : Bool :=
  c = ' ' || c = '\t' || c = '\n' || c = '\r'

/-- Model of `url.strip()` on a character list. -/
def stripChars (s : List Char) : List Char :=
  ((s.dropWhile isSpaceChar).reverse.dropWhile isSpaceChar).reverse

/-- Remainder of `s` after the literal prefix `pre`, when `pre` matches. -/
def dropPre : List Char → List Char → Option (List Char)
  | [], s => some s
  | _ :: _, [] => none
  | a :: as, b :: bs => if a = b then dropPre as bs else none

/-- Whether `needle` occurs as a contiguous substring of `hay`
(models Python's `in` on strings). -/
def hasSubstr (needle : List Char) : List Char → Bool
  | [] => (dropPre needle []).isSome
  | c :: rest => (dropPre needle (c :: rest)).isSome || hasSubstr needle rest

/-- The anchored regex `(https?://(?:www\.)?linkedin\.com/in/[^/]+).*` of
`_clean_profile_url` (`batch_processor.py`, line 216), returning group 1.
Each optional piece is deterministic here: taking `s` or `www.` greedily can
never preclude a match that skipping them would allow, because the following
literal begins with a different character. -/
def match_clean (s : List Char) : Option (List Char) :=
  (dropPre "http".toList s).bind fun r1 =>
  let sPart : List Char × List Char :=
    match r1 with
    | 's' :: t => ("s".toList, t)
    | _ => ([], r1)
  (dropPre "://".toList sPart.2).bind fun r3 =>
  let wPart : List Char × List Char :=
    match dropPre "www.".toList r3 with
    | some t => ("www.".toList, t)
    | none => ([], r3)
  (dropPre "linkedin.com/in/".toList wPart.2).bind fun r5 =>
  let handle := r5.takeWhile (fun c => c ≠ '/')
  if handle.isEmpty then none
  else some ("http".toList ++ sPart.1 ++ "://".toList ++ wPart.1 ++
             "linkedin.com/in/".toList ++ handle)

/-- Model of `BatchProcessor._clean_profile_url` (`batch_processor.py`, lines 197-220).
`none` models the `ValueError` raised when the URL does not contain
`linkedin.com/in/`; when the regex does not match, the stripped URL is
returned unchanged. -/
def clean_profile_url (url : String) : Option String :=
  let u := stripChars url.toList
  if hasSubstr "linkedin.com/in/".toList u then
    match match_clean u with
    | some cs => some (String.mk cs)
    | none => some (String.mk u)
  else none

/-- The result dict of `add_profiles` (`batch_processor.py`, lines 72-77). -/
structure AddResults where
  success : Bool
  added : List String
  failed : List String
  already_queued : List String
  deriving Repr, DecidableEq

/-- The `for url in profile_urls` loop of `add_profiles` (lines 79-106):
clean each url (a raised `ValueError` lands in `failed`), add it to the
queue, and classify by comparing `get_queue_stats().total` before and
after.  Returns (final queue, results, events published by the queue). -/
def add_profiles_loop (urgent : Bool) (initiator : String) (now : Nat) :
    List String → List Entry → AddResults → List Entry × AddResults × List QueueEvent
  | [], q, res => (q, res, [])
  | url :: rest, q, res =>
    match clean_profile_url url with
    | none =>
      let res' := { res with failed := res.failed ++ [url], success := false }
      add_profiles_loop urgent initiator now rest q res'
    | some clean_url =>
      let queue_before := QueueManager.get_queue_stats q
      let r := QueueManager.add_profile q clean_url urgent initiator now
      let queue_after := QueueManager.get_queue_stats r.2.1
      let res' :=
        if r.1 then
          if queue_before.total < queue_after.total then
            { res with added := res.added ++ [clean_url] }
          else
            { res with already_queued := res.already_queued ++ [clean_url] }
        else
          { res with failed := res.failed ++ [clean_url], success := false }
      let rec_result := add_profiles_loop urgent initiator now rest r.2.1 res'
      (rec_result.1, rec_result.2.1, r.2.2 ++ rec_result.2.2)

/-- The components `BatchProcessor.add_profiles` reads.  Crucially,
`BatchProcessor.__init__` (line 43) constructs a *fresh* `StateMachine()`
for `self.state_machine` — despite its "Using shared state machine"
comment — so the instance it consults is distinct from the Brain's
(`brain.state_machine`), which holds the scheduler's operating state. -/
structure BPState where
  brain_sm : StateMachine
  own_sm : StateMachine
  queue : List Entry
  deriving Repr, DecidableEq

/-- Model of `BatchProcessor.add_profiles` (`batch_processor.py`, lines 60-112).
The final `Bool` records whether `self.brain._check_and_activate()` was
invoked (line 110); its guard (line 109) reads `self.state_machine`,
i.e. `own_sm`. -/
def add_profiles (st : BPState) (profile_urls : List String) (urgent : Bool)
    (initiator : String) (now : Nat) : AddResults × BPState × List QueueEvent × Bool :=
  let res0 : AddResults := { success := true, added := [], failed := [], already_queued := [] }
  let r := add_profiles_loop urgent initiator now profile_urls st.queue res0
  let results := r.2.1
  let triggered := !results.added.isEmpty &&
    (StateMachine.get_current_state st.own_sm = SysState.inactive)
  (results, { st with queue := r.1 }, r.2.2, triggered)

/-- Values stored in a session-stats dict. -/
inductive StatVal where
  | nat (n : Nat)
  | str (s : String)
  deriving Repr, DecidableEq

/-- A session-stats dict (`stats` in `_process_session`). -/
abbrev Stats := List (String × StatVal)

/-- A session's data as far as `_process_session` consumes it. -/
structure SessionData where
  id : String
  deriving Repr, DecidableEq

/-- The registered session callback (`self.session_callback`): `Except`
models a Python callable that either returns a value or raises; the
returned value is `some dict` when it is a dict and `none` when it is
`None` or any non-dict value. -/
abbrev SessionCallback := SessionData → Except String (Option Stats)

/-- Model of `BatchProcessor._process_session` (`batch_processor.py`, lines 145-185).
The output is the list of `brain.session_ended(session_id, stats)` calls the
routine performs (the `finally` block).  The `try/except Exception` around
the callback means no exception escapes: the model is a total function. -/
def process_session (session_callback : Option SessionCallback)
    (session_data : SessionData) : List (String × Stats) :=
  let stats : Stats :=
    [("profiles_started", .nat 0), ("profiles_completed", .nat 0), ("profiles_failed", .nat 0)]
  let final_stats :=
    match session_callback with
    | some f =>
      match f session_data with
      | .ok results =>
        match results with
        | some r => if r.isEmpty then stats else dict_update stats r
        | none => stats
      | .error e => set_key stats "error" (.str e)
    | none => stats
  [(session_data.id, final_stats)]

end BatchProcessor

/-- Concrete example entries for the C3 scenario:
A is urgent and early, B not urgent and early, C urgent and late. -/
def c3_A : Entry :=
  { url := "A", done := false, urgent := true, initiator := "",
    created_at := 1, updated_at := 1, status := "queued", metadata := [] }

/-- See `c3_A`. -/
def c3_B : Entry :=
  { url := "B", done := false, urgent := false, initiator := "",
    created_at := 1, updated_at := 1, status := "queued", metadata := [] }

/-- See `c3_A`. -/
def c3_C : Entry :=
  { url := "C", done := false, urgent := true, initiator := "",
    created_at := 2, updated_at := 2, status := "queued", metadata := [] }

/-- The C3 scenario queue, in insertion order. -/
def c3_queue : List Entry := [c3_A, c3_B, c3_C]

namespace QueueManager

theorem keyLe_trans (a b c : Nat × Nat) (h1 : keyLe a b = true) (h2 : keyLe b c = true) :
    keyLe a c = true := by
  simp only [keyLe, Bool.or_eq_true, Bool.and_eq_true, decide_eq_true_eq] at *
  omega

theorem keyLe_total (a b : Nat × Nat) : (keyLe a b || keyLe b a) = true := by
  simp only [keyLe, Bool.or_eq_true, Bool.and_eq_true, decide_eq_true_eq]
  omega

theorem entryLe_trans (a b c : Entry) (h1 : entryLe a b = true) (h2 : entryLe b c = true) :
    entryLe a c = true :=
  keyLe_trans _ _ _ h1 h2

theorem entryLe_total (a b : Entry) : (entryLe a b || entryLe b a) = true :=
  keyLe_total _ _

/-- Stability of the model's sort, stated per key class: restricting the
sorted list to the entries of any one sort key yields exactly the input
restricted to that key, in input order.  This is the "ties broken by
original insertion order" property of Python's stable `sorted`. -/
theorem mergeSort_filter_entryKey (l : List Entry) (k : Nat × Nat) :
    (l.mergeSort entryLe).filter (fun e => decide (entryKey e = k)) =
      l.filter (fun e => decide (entryKey e = k)) := by
  have hall : ∀ e ∈ l.filter (fun e => decide (entryKey e = k)),
      (decide (entryKey e = k)) = true := by
    intro e he
    exact (List.mem_filter.mp he).2
  have hpair : (l.filter (fun e => decide (entryKey e = k))).Pairwise
      (fun a b => entryLe a b = true) := by
    apply List.pairwise_of_forall_mem_list
    intro a ha b hb
    have hka := (List.mem_filter.mp ha).2
    have hkb := (List.mem_filter.mp hb).2
    simp only [decide_eq_true_eq] at hka hkb
    simp [entryLe, hka, hkb, keyLe]
  have hsub : (l.filter (fun e => decide (entryKey e = k))).Sublist (l.mergeSort entryLe) :=
    List.sublist_mergeSort entryLe_trans entryLe_total hpair (List.filter_sublist l)
  have hsub2 : ((l.filter (fun e => decide (entryKey e = k))).filter
        (fun e => decide (entryKey e = k))).Sublist
      ((l.mergeSort entryLe).filter (fun e => decide (entryKey e = k))) :=
    hsub.filter _
  rw [List.filter_eq_self.mpr hall] at hsub2
  have hperm : ((l.mergeSort entryLe).filter (fun e => decide (entryKey e = k))).Perm
      (l.filter (fun e => decide (entryKey e = k))) :=
    (List.mergeSort_perm l entryLe).filter _
  exact (hsub2.eq_of_length hperm.length_eq.symm).symm

/-- The `add_profile` scan returns `none` exactly on a queue with no
matching url. -/
theorem add_profile_loop_none (url : String) (urgent : Bool) (initiator : String)
    (now : Nat) (q : List Entry) (h : ∀ x ∈ q, x.url ≠ url) :
    add_profile_loop url urgent initiator now q = none := by
  induction q with
  | nil => rfl
  | cons e rest ih =>
    have hne : e.url ≠ url := h e (List.mem_cons_self e rest)
    simp only [add_profile_loop, if_neg hne]
    rw [ih (fun x hx => h x (List.mem_cons_of_mem e hx))]

/-- The `add_profile` scan updates the first matching entry and nothing
else. -/
theorem add_profile_loop_found (url : String) (urgent : Bool) (initiator : String)
    (now : Nat) (pre suf : List Entry) (e : Entry)
    (hpre : ∀ x ∈ pre, x.url ≠ url) (he : e.url = url) :
    add_profile_loop url urgent initiator now (pre ++ e :: suf) =
      some (pre ++ update_existing e urgent initiator now :: suf) := by
  induction pre with
  | nil => simp [add_profile_loop, he]
  | cons p rest ih =>
    have hne : p.url ≠ url := hpre p (List.mem_cons_self p rest)
    simp only [List.cons_append, add_profile_loop, if_neg hne]
    simp [ih (fun x hx => hpre x (List.mem_cons_of_mem p hx))]

/-- Same scan shape for `mark_profile_status`. -/
theorem mark_loop_none (url status : String) (metadata : Option (List (String × String)))
    (now : Nat) (q : List Entry) (h : ∀ x ∈ q, x.url ≠ url) :
    mark_loop url status metadata now q = none := by
  induction q with
  | nil => rfl
  | cons e rest ih =>
    have hne : e.url ≠ url := h e (List.mem_cons_self e rest)
    simp only [mark_loop, if_neg hne]
    rw [ih (fun x hx => h x (List.mem_cons_of_mem e hx))]

end QueueManager

namespace Brain

/-- Exhaustive characterisation of the next-hour selection for every hour of
the day: the chosen hour is active and below 24; when chosen for today it is
the least active hour after the current one; when pushed to tomorrow it is
`min(ACTIVE_HOURS) = 10`, and that happens exactly when no active hour
remains today. -/
theorem next_hour_slot_spec : ∀ ch, ch < 24 →
    ((next_hour_slot ch).1 ∈ ACTIVE_HOURS ∧ (next_hour_slot ch).1 < 24) ∧
    ((next_hour_slot ch).2 = false → ch < (next_hour_slot ch).1 ∧
      ∀ h ∈ ACTIVE_HOURS, ch < h → (next_hour_slot ch).1 ≤ h) ∧
    ((next_hour_slot ch).2 = true → (next_hour_slot ch).1 = 10 ∧
      ∀ h ∈ ACTIVE_HOURS, h ≤ ch) ∧
    ((∀ h ∈ ACTIVE_HOURS, h ≤ ch) → (next_hour_slot ch).2 = true) := by decide

end Brain

/-- C1: for every current state and every requested new state not in the
statically defined adjacency set of that current state,
`StateMachine.transition` returns `False` and performs no mutation —
current state, state data and the transition history are all unchanged and
no state-changed event is published. -/
theorem c1_invalid_transition_no_mutation (sm : StateMachine) (new_state : SysState)
    (reason : String) (data : Option Payload) (now : Nat)
    (h : new_state ∉ valid_transitions sm.current_state) :
    sm.transition new_state reason data now = (false, sm, []) := by
  unfold StateMachine.transition
  rw [if_neg h]

/-- Witness for C1: from `inactive`, `feed_browsing` is not adjacent, and the
call leaves the freshly initialised machine untouched and publishes
nothing. -/
theorem c1_witness :
    SysState.feed_browsing ∉ valid_transitions (StateMachine.init .inactive 0).current_state ∧
    (StateMachine.init .inactive 0).transition .feed_browsing "go" (some [("k", "v")]) 5 =
      (false, StateMachine.init .inactive 0, []) :=
  ⟨by decide,
   c1_invalid_transition_no_mutation (StateMachine.init .inactive 0) .feed_browsing
     "go" (some [("k", "v")]) 5 (by decide)⟩

/-- C7 counterexample: the claim "after a successful transition
`get_state_data` equals exactly the provided payload, for every provided
data argument" fails for the provided payload `{}` (an empty dict): the
guard `if data:` on line 114 of `state_machine.py` is falsy for an empty
dict, so the old state data is retained.  Here the transition succeeds but
`get_state_data` still returns the old payload, not the provided empty
one. -/
theorem c7_counterexample :
    ((( { current_state := .inactive, state_history := [],
          state_data := [("session", "old")] } : StateMachine).transition
        .waiting_for_active_hours "r" (some []) 3).1 = true) ∧
    StateMachine.get_state_data
        ((( { current_state := .inactive, state_history := [],
              state_data := [("session", "old")] } : StateMachine).transition
            .waiting_for_active_hours "r" (some []) 3).2.1) = [("session", "old")] := by
  decide

/-- C7 amended: on every successful transition whose provided payload is a
non-empty dict, `state_data` is replaced wholesale by that payload (never
merged with the previous one); with a `None` or empty payload the previous
`state_data` is retained. -/
theorem c7_replace_amended (sm : StateMachine) (new_state : SysState) (reason : String)
    (d : Payload) (now : Nat)
    (hvalid : new_state ∈ valid_transitions sm.current_state) (hne : d ≠ []) :
    (sm.transition new_state reason (some d) now).1 = true ∧
    StateMachine.get_state_data (sm.transition new_state reason (some d) now).2.1 = d := by
  unfold StateMachine.transition StateMachine.get_state_data
  rw [if_pos hvalid]
  have : d.isEmpty = false := by
    cases d with
    | nil => exact absurd rfl hne
    | cons a l => rfl
  simp [this]

/-- Witness for C7's amended theorem: a non-empty payload from a machine
holding different old data gets installed wholesale. -/
theorem c7_witness :
    ((( { current_state := .inactive, state_history := [],
          state_data := [("session", "old")] } : StateMachine).transition
        .waiting_for_active_hours "r" (some [("plan", "p1")]) 3).1 = true) ∧
    StateMachine.get_state_data
        ((( { current_state := .inactive, state_history := [],
              state_data := [("session", "old")] } : StateMachine).transition
            .waiting_for_active_hours "r" (some [("plan", "p1")]) 3).2.1) = [("plan", "p1")] :=
  c7_replace_amended
    { current_state := .inactive, state_history := [], state_data := [("session", "old")] }
    .waiting_for_active_hours "r" [("plan", "p1")] 3 (by decide) (by decide)

/-- C10: marking a status for a URL with no entry in the queue returns
`False`, leaves the queue unchanged, and publishes no event. -/
theorem c10_mark_missing_url (q : List Entry) (url status : String)
    (metadata : Option (List (String × String))) (now : Nat)
    (h : ∀ x ∈ q, x.url ≠ url) :
    QueueManager.mark_profile_status q url status metadata now = (false, q, []) := by
  unfold QueueManager.mark_profile_status
  rw [QueueManager.mark_loop_none url status metadata now q h]

/-- Witness for C10: a concrete queue holding only url "a", queried for
url "b". -/
theorem c10_witness :
    QueueManager.mark_profile_status
      [{ url := "a", done := false, urgent := false, initiator := "",
         created_at := 1, updated_at := 1, status := "queued", metadata := [] }]
      "b" "completed" (some [("k", "v")]) 7 =
    (false,
     [{ url := "a", done := false, urgent := false, initiator := "",
        created_at := 1, updated_at := 1, status := "queued", metadata := [] }],
     []) :=
  c10_mark_missing_url
    [{ url := "a", done := false, urgent := false, initiator := "",
       created_at := 1, updated_at := 1, status := "queued", metadata := [] }]
    "b" "completed" (some [("k", "v")]) 7 (by decide)

/-- The four facts about `update_existing` that C2 needs: the url and
creation time are kept, the result is always queued (`done = false`, both
for a completed entry being reset and for a pending entry staying pending),
and urgency is exactly the disjunction of the requested and existing
flags. -/
theorem update_existing_spec (e : Entry) (urgent : Bool) (initiator : String) (now : Nat) :
    (QueueManager.update_existing e urgent initiator now).url = e.url ∧
    (QueueManager.update_existing e urgent initiator now).done = false ∧
    (QueueManager.update_existing e urgent initiator now).urgent = (urgent || e.urgent) ∧
    (QueueManager.update_existing e urgent initiator now).created_at = e.created_at := by
  unfold QueueManager.update_existing
  cases hd : e.done <;> cases hu : urgent <;> cases hue : e.urgent <;> simp [hd, hu, hue]

/-- C2: the queue holds at most one entry per URL.  For every call to
`add_profile`: the call returns `True` and publishes exactly one
queue-updated event for that url.  When the url is already present (the
first matching entry `e`, whether pending or completed), the entry count
does not increase and exactly that entry is rewritten in place to one that
is queued (`done = false`), whose urgency is at most upgraded
(`urgent' = urgent ∨ e.urgent`) and whose creation time is kept — no
duplicate record is created.  When the url is absent, exactly one new
queued entry is appended. -/
theorem c2_queue_dedup (q : List Entry) (url : String) (urgent : Bool)
    (initiator : String) (now : Nat) :
    (QueueManager.add_profile q url urgent initiator now).1 = true ∧
    (∃ action, (QueueManager.add_profile q url urgent initiator now).2.2 =
      [QueueEvent.queueUpdated action url]) ∧
    (∀ pre e suf, q = pre ++ e :: suf → (∀ x ∈ pre, x.url ≠ url) → e.url = url →
      (QueueManager.add_profile q url urgent initiator now).2.1.length = q.length ∧
      ∃ e', (QueueManager.add_profile q url urgent initiator now).2.1 = pre ++ e' :: suf ∧
        e'.url = url ∧ e'.done = false ∧ e'.urgent = (urgent || e.urgent) ∧
        e'.created_at = e.created_at) ∧
    ((∀ x ∈ q, x.url ≠ url) →
      (QueueManager.add_profile q url urgent initiator now).2.1 =
        q ++ [{ url := url, done := false, urgent := urgent, initiator := initiator,
                created_at := now, updated_at := now, status := "queued", metadata := [] }]) := by
  refine ⟨?_, ?_, ?_, ?_⟩
  · unfold QueueManager.add_profile
    cases QueueManager.add_profile_loop url urgent initiator now q <;> rfl
  · unfold QueueManager.add_profile
    cases QueueManager.add_profile_loop url urgent initiator now q with
    | none => exact ⟨"added", rfl⟩
    | some q' => exact ⟨"updated", rfl⟩
  · intro pre e suf hq hpre he
    subst hq
    unfold QueueManager.add_profile
    rw [QueueManager.add_profile_loop_found url urgent initiator now pre suf e hpre he]
    obtain ⟨hu1, hu2, hu3, hu4⟩ := update_existing_spec e urgent initiator now
    exact ⟨by simp, QueueManager.update_existing e urgent initiator now, rfl,
           hu1.trans he, hu2, hu3, hu4⟩
  · intro habs
    unfold QueueManager.add_profile
    rw [QueueManager.add_profile_loop_none url urgent initiator now q habs]

/-- Witness for C2, exercising all three cases at concrete inputs: a pending
entry is re-added urgently (count unchanged, urgency upgraded), and the
events and append behaviour are checked on the same queue. -/
theorem c2_witness :
    (QueueManager.add_profile
      [{ url := "u", done := false, urgent := false, initiator := "",
         created_at := 1, updated_at := 1, status := "queued", metadata := [] }]
      "u" true "t" 9).1 = true ∧
    (∃ action, (QueueManager.add_profile
      [{ url := "u", done := false, urgent := false, initiator := "",
         created_at := 1, updated_at := 1, status := "queued", metadata := [] }]
      "u" true "t" 9).2.2 = [QueueEvent.queueUpdated action "u"]) ∧
    (QueueManager.add_profile
      [{ url := "u", done := false, urgent := false, initiator := "",
         created_at := 1, updated_at := 1, status := "queued", metadata := [] }]
      "u" true "t" 9).2.1.length = 1 ∧
    ∃ e', (QueueManager.add_profile
      [{ url := "u", done := false, urgent := false, initiator := "",
         created_at := 1, updated_at := 1, status := "queued", metadata := [] }]
      "u" true "t" 9).2.1 = [] ++ e' :: [] ∧
      e'.url = "u" ∧ e'.done = false ∧ e'.urgent = (true || false) ∧ e'.created_at = 1 := by
  have h := c2_queue_dedup
    [{ url := "u", done := false, urgent := false, initiator := "",
       created_at := 1, updated_at := 1, status := "queued", metadata := [] }]
    "u" true "t" 9
  obtain ⟨h1, h2, h3, _⟩ := h
  obtain ⟨h4, h5⟩ := h3 []
    { url := "u", done := false, urgent := false, initiator := "",
      created_at := 1, updated_at := 1, status := "queued", metadata := [] }
    [] rfl (by simp) rfl
  exact ⟨h1, h2, h4, h5⟩

/-- C3: `get_next_profiles n false` returns at most `n` entries, all with
`done = false`, sorted by the key (urgent first, then oldest `created_at`);
the underlying stable sort preserves input order within every key class
(ties broken by original insertion order); and on the concrete scenario
`[A(urgent, early), B(not urgent, early), C(urgent, late)]` it returns
`[A, C, B]`. -/
theorem c3_priority_ordering (q : List Entry) (n : Nat) :
    (QueueManager.get_next_profiles q n false).length ≤ n ∧
    (∀ e ∈ QueueManager.get_next_profiles q n false, e.done = false) ∧
    List.Pairwise (fun a b => QueueManager.entryLe a b = true)
      (QueueManager.get_next_profiles q n false) ∧
    (∀ k : Nat × Nat,
      ((q.filter (fun e => !e.done)).mergeSort QueueManager.entryLe).filter
          (fun e => decide (QueueManager.entryKey e = k)) =
        (q.filter (fun e => !e.done)).filter
          (fun e => decide (QueueManager.entryKey e = k))) ∧
    QueueManager.get_next_profiles c3_queue 3 false = [c3_A, c3_C, c3_B] := by
  refine ⟨?_, ?_, ?_, ?_, ?_⟩
  · simp only [QueueManager.get_next_profiles]
    exact List.length_take_le n _
  · intro e he
    simp only [QueueManager.get_next_profiles] at he
    have h1 : e ∈ (q.filter (fun e => false || !e.done)).mergeSort QueueManager.entryLe :=
      (List.take_sublist n _).subset he
    have h2 : e ∈ q.filter (fun e => false || !e.done) := List.mem_mergeSort.mp h1
    have := (List.mem_filter.mp h2).2
    simpa using this
  · simp only [QueueManager.get_next_profiles]
    exact List.Pairwise.sublist (List.take_sublist n _)
      (List.sorted_mergeSort QueueManager.entryLe_trans QueueManager.entryLe_total _)
  · intro k
    exact QueueManager.mergeSort_filter_entryKey _ k
  · simp [QueueManager.get_next_profiles, List.mergeSort, QueueManager.entryLe,
          QueueManager.keyLe, QueueManager.entryKey, c3_queue, c3_A, c3_B, c3_C]

/-- Witness for C3 at concrete inputs: the bound, the done-filter and the
ordering hold for the scenario queue, and the scenario output is
`[A, C, B]`. -/
theorem c3_witness :
    (QueueManager.get_next_profiles c3_queue 3 false).length ≤ 3 ∧
    (∀ e ∈ QueueManager.get_next_profiles c3_queue 3 false, e.done = false) ∧
    QueueManager.get_next_profiles c3_queue 3 false = [c3_A, c3_C, c3_B] := by
  obtain ⟨h1, h2, _, _, h5⟩ := c3_priority_ordering c3_queue 3
  exact ⟨h1, h2, h5⟩

/-- C4: when the current hour's target session count is already met
(3 for the three-session special hour, 1 for the one-session special hours,
`SESSIONS_PER_HOUR` otherwise), the computed start time falls in a strictly
later hour, within the first 15 minutes of the chosen hour, and the chosen
hour is the next active hour: the least active hour after the current one
when one remains today (same day), else the earliest active hour (10)
tomorrow. -/
theorem c4_hourly_cap (now : Nat) (mem : Brain.Memory)
    (current_session : Option Brain.SessionRecord) (three_session_hour : Nat)
    (one_session_hours : List Nat) (rand_offset rand_delay : Nat)
    (hro1 : 1 ≤ rand_offset) (hro2 : rand_offset ≤ 15 * 60)
    (hcap : Brain.target_sessions (Brain.hourOfDay now) three_session_hour one_session_hours ≤
      (Brain.sessionsAt mem (Brain.dayOf now) (Brain.hourOfDay now)).length) :
    now / 3600 <
      Brain.calculate_next_session_time now mem current_session three_session_hour
        one_session_hours rand_offset rand_delay / 3600 ∧
    1 ≤ Brain.calculate_next_session_time now mem current_session three_session_hour
        one_session_hours rand_offset rand_delay % 3600 ∧
    Brain.calculate_next_session_time now mem current_session three_session_hour
        one_session_hours rand_offset rand_delay % 3600 ≤ 15 * 60 ∧
    Brain.hourOfDay (Brain.calculate_next_session_time now mem current_session three_session_hour
        one_session_hours rand_offset rand_delay) ∈ Brain.ACTIVE_HOURS ∧
    (∀ h ∈ Brain.ACTIVE_HOURS, Brain.hourOfDay now < h →
      Brain.hourOfDay (Brain.calculate_next_session_time now mem current_session
          three_session_hour one_session_hours rand_offset rand_delay) ≤ h ∧
      Brain.dayOf (Brain.calculate_next_session_time now mem current_session
          three_session_hour one_session_hours rand_offset rand_delay) = Brain.dayOf now) ∧
    ((∀ h ∈ Brain.ACTIVE_HOURS, h ≤ Brain.hourOfDay now) →
      Brain.dayOf (Brain.calculate_next_session_time now mem current_session
          three_session_hour one_session_hours rand_offset rand_delay) = Brain.dayOf now + 1 ∧
      Brain.hourOfDay (Brain.calculate_next_session_time now mem current_session
          three_session_hour one_session_hours rand_offset rand_delay) = 10) := by
  have hch : Brain.hourOfDay now < 24 := by
    unfold Brain.hourOfDay
    omega
  obtain ⟨⟨hmem, hlt24⟩, hfalse, htrue, hforce⟩ :=
    Brain.next_hour_slot_spec (Brain.hourOfDay now) hch
  have hcalc : Brain.calculate_next_session_time now mem current_session three_session_hour
      one_session_hours rand_offset rand_delay =
      Brain.replaceHour now (Brain.next_hour_slot (Brain.hourOfDay now)).1 +
        (if (Brain.next_hour_slot (Brain.hourOfDay now)).2 then 86400 else 0) + rand_offset := by
    unfold Brain.calculate_next_session_time
    rw [if_pos hcap]
  rw [hcalc]
  rcases hnhs : Brain.next_hour_slot (Brain.hourOfDay now) with ⟨H, T⟩
  simp only [hnhs] at hmem hlt24 hfalse htrue hforce ⊢
  have hrep : Brain.replaceHour now H = now / 86400 * 86400 + H * 3600 := rfl
  rw [hrep]
  have hhod : Brain.hourOfDay now = now % 86400 / 3600 := rfl
  cases T with
  | false =>
    obtain ⟨hgt, hmin⟩ := hfalse rfl
    rw [hhod] at hgt
    rw [if_neg Bool.false_ne_true]
    unfold Brain.hourOfDay Brain.dayOf
    refine ⟨by omega, by omega, by omega, ?_, ?_, ?_⟩
    · have heq : (now / 86400 * 86400 + H * 3600 + 0 + rand_offset) % 86400 / 3600 = H := by
        omega
      rw [heq]
      exact hmem
    · intro h hh hlt
      have hle := hmin h hh hlt
      have heq : (now / 86400 * 86400 + H * 3600 + 0 + rand_offset) % 86400 / 3600 = H := by
        omega
      exact ⟨by omega, by omega⟩
    · intro hall
      exact absurd (hforce hall) Bool.false_ne_true
  | true =>
    obtain ⟨h10, hall⟩ := htrue rfl
    have hallh : ∀ h ∈ Brain.ACTIVE_HOURS, h ≤ now % 86400 / 3600 := by
      intro h hh
      have := hall h hh
      rw [hhod] at this
      exact this
    subst h10
    rw [if_pos rfl]
    unfold Brain.hourOfDay Brain.dayOf
    refine ⟨by omega, by omega, by omega, ?_, ?_, ?_⟩
    · have heq : (now / 86400 * 86400 + 10 * 3600 + 86400 + rand_offset) % 86400 / 3600 = 10 := by
        omega
      rw [heq]
      exact hmem
    · intro h hh hlt
      have h1 := hallh h hh
      omega
    · intro _
      exact ⟨by omega, by omega⟩

/-- Witness for C4: at 10:00:00 on day 0 with two sessions already recorded
for hour 10 (a regular hour, target `SESSIONS_PER_HOUR = 2`), the next
session is pushed into hour 11. -/
theorem c4_witness :
    1 ≤ 100 ∧ (100 : Nat) ≤ 15 * 60 ∧
    Brain.target_sessions (Brain.hourOfDay 36000) 14 [12, 13] ≤
      (Brain.sessionsAt { days := [((0, 10), [⟨36000, none⟩, ⟨37000, none⟩])] }
        (Brain.dayOf 36000) (Brain.hourOfDay 36000)).length ∧
    36000 / 3600 <
      Brain.calculate_next_session_time 36000
        { days := [((0, 10), [⟨36000, none⟩, ⟨37000, none⟩])] } none 14 [12, 13] 100 50 / 3600 ∧
    Brain.hourOfDay (Brain.calculate_next_session_time 36000
        { days := [((0, 10), [⟨36000, none⟩, ⟨37000, none⟩])] } none 14 [12, 13] 100 50) ∈
      Brain.ACTIVE_HOURS := by
  have h := c4_hourly_cap 36000 { days := [((0, 10), [⟨36000, none⟩, ⟨37000, none⟩])] }
    none 14 [12, 13] 100 50 (by decide) (by decide) (by decide)
  exact ⟨by decide, by decide, by decide, h.1, h.2.2.2.1⟩

/-- C5: when the current hour's target is not yet met and a previous session
end time resolves (from the current session if it has one, else from the
last session recorded for this hour), the computed start time is at least
that end time plus `MINIMUM_SESSION_SPACING`. -/
theorem c5_minimum_spacing (now : Nat) (mem : Brain.Memory)
    (current_session : Option Brain.SessionRecord) (three_session_hour : Nat)
    (one_session_hours : List Nat) (rand_offset rand_delay : Nat) (last_end : Nat)
    (hnot : (Brain.sessionsAt mem (Brain.dayOf now) (Brain.hourOfDay now)).length <
      Brain.target_sessions (Brain.hourOfDay now) three_session_hour one_session_hours)
    (hlast : Brain.last_session_end current_session mem (Brain.dayOf now) (Brain.hourOfDay now) =
      some last_end) :
    last_end + Brain.MINIMUM_SESSION_SPACING ≤
      Brain.calculate_next_session_time now mem current_session three_session_hour
        one_session_hours rand_offset rand_delay := by
  unfold Brain.calculate_next_session_time
  rw [if_neg (by omega)]
  rw [hlast]
  unfold Brain.MINIMUM_SESSION_SPACING
  show last_end + 15 * 60 ≤
    if now < last_end + 15 * 60 then last_end + 15 * 60 else now + rand_delay
  split <;> omega

/-- Witness for C5: hour 10 has one recorded session (ending at 36600)
against a target of 2, so the next start is no earlier than
36600 + 900 = 37500. -/
theorem c5_witness :
    (Brain.sessionsAt { days := [((0, 10), [⟨36000, some 36600⟩])] }
        (Brain.dayOf 36650) (Brain.hourOfDay 36650)).length <
      Brain.target_sessions (Brain.hourOfDay 36650) 14 [12, 13] ∧
    Brain.last_session_end none { days := [((0, 10), [⟨36000, some 36600⟩])] }
        (Brain.dayOf 36650) (Brain.hourOfDay 36650) = some 36600 ∧
    36600 + Brain.MINIMUM_SESSION_SPACING ≤
      Brain.calculate_next_session_time 36650
        { days := [((0, 10), [⟨36000, some 36600⟩])] } none 14 [12, 13] 100 50 :=
  ⟨by decide, by decide,
   c5_minimum_spacing 36650 { days := [((0, 10), [⟨36000, some 36600⟩])] } none 14 [12, 13]
     100 50 36600 (by decide) (by decide)⟩

/-- C6 counterexample: with the state machine in `feed_browsing` (an
executing state whose adjacency set does not contain `inactive`),
`Brain.stop` on a running Brain returns `True` but cannot force the state
back to `inactive` — the internal `transition(INACTIVE, ...)` fails and its
return value is discarded (`brain.py`, lines 307-308), so the state stays
`feed_browsing`, refuting "after stop() returns the StateMachine's current
state is INACTIVE" for every state. -/
theorem c6_counterexample :
    ({ running := true,
       sm := { current_state := .feed_browsing, state_history := [], state_data := [] } }
        : Brain.BrainState).running = true ∧
    (Brain.stop
      { running := true,
        sm := { current_state := .feed_browsing, state_history := [], state_data := [] } }
      0).1 = true ∧
    (Brain.stop
      { running := true,
        sm := { current_state := .feed_browsing, state_history := [], state_data := [] } }
      0).2.1.sm.current_state = .feed_browsing := by
  decide

/-- C6 amended: for every running Brain whose state machine is in a state
from which `inactive` is reachable in one transition (every state except
`feed_browsing`, `profile_scraping` and the two states missing from the
adjacency table) — or already `inactive` — `stop()` returns `True` and
leaves the state at `inactive`; a second `stop()` in a row does not raise
(the model is a total function), returns `False`, changes nothing and
publishes nothing, leaving the state at `inactive`. -/
theorem c6_stop_amended (b : Brain.BrainState) (now now' : Nat)
    (hrun : b.running = true)
    (hok : b.sm.current_state = .inactive ∨
      SysState.inactive ∈ valid_transitions b.sm.current_state) :
    (Brain.stop b now).1 = true ∧
    (Brain.stop b now).2.1.sm.current_state = .inactive ∧
    Brain.stop (Brain.stop b now).2.1 now' = (false, (Brain.stop b now).2.1, []) := by
  have hstop : Brain.stop b now =
      (true,
       { running := false,
         sm := if b.sm.current_state = .inactive then b.sm
               else (b.sm.transition .inactive "Brain stopped" none now).2.1 },
       if b.sm.current_state = .inactive then []
       else (b.sm.transition .inactive "Brain stopped" none now).2.2) := by
    unfold Brain.stop
    by_cases hc : b.sm.current_state = SysState.inactive
    · simp [hrun, hc]
    · simp [hrun, hc]
  have hstate : (Brain.stop b now).2.1.sm.current_state = .inactive := by
    rw [hstop]
    by_cases hc : b.sm.current_state = .inactive
    · simp [hc]
    · rcases hok with hok | hok
      · exact absurd hok hc
      · simp only [if_neg hc]
        unfold StateMachine.transition
        rw [if_pos hok]
  refine ⟨by rw [hstop], hstate, ?_⟩
  rw [hstop]
  unfold Brain.stop
  simp

/-- Witness for C6's amended theorem: stopping from
`waiting_for_active_hours`, then stopping again. -/
theorem c6_witness :
    ({ running := true,
       sm := { current_state := .waiting_for_active_hours, state_history := [],
               state_data := [] } } : Brain.BrainState).running = true ∧
    (Brain.stop
      { running := true,
        sm := { current_state := .waiting_for_active_hours, state_history := [],
                state_data := [] } } 4).1 = true ∧
    (Brain.stop
      { running := true,
        sm := { current_state := .waiting_for_active_hours, state_history := [],
                state_data := [] } } 4).2.1.sm.current_state = .inactive ∧
    Brain.stop
      (Brain.stop
        { running := true,
          sm := { current_state := .waiting_for_active_hours, state_history := [],
                  state_data := [] } } 4).2.1 9 =
      (false,
       (Brain.stop
         { running := true,
           sm := { current_state := .waiting_for_active_hours, state_history := [],
                   state_data := [] } } 4).2.1, []) := by
  have h := c6_stop_amended
    { running := true,
      sm := { current_state := .waiting_for_active_hours, state_history := [],
              state_data := [] } } 4 9 (by decide) (by decide)
  exact ⟨rfl, h.1, h.2.1, h.2.2⟩

/-- C8: `_process_session` calls `brain.session_ended(session_id, stats)`
exactly once for every session-started event it handles, whatever the
registered callback does; when the callback raises, the exception is caught
at the coordinator boundary (the model is a total function: nothing
propagates), recorded in the stats under the "error" key, and
`session_ended` is still invoked with the session's id. -/
theorem c8_session_ended_once (session_callback : Option BatchProcessor.SessionCallback)
    (session_data : BatchProcessor.SessionData) :
    (BatchProcessor.process_session session_callback session_data).length = 1 ∧
    (∃ st, BatchProcessor.process_session session_callback session_data =
      [(session_data.id, st)]) ∧
    (∀ f e, session_callback = some f → f session_data = .error e →
      ∃ st, BatchProcessor.process_session session_callback session_data =
        [(session_data.id, st)] ∧ get_key st "error" = some (.str e)) := by
  refine ⟨rfl, ⟨_, rfl⟩, ?_⟩
  intro f e hcb herr
  subst hcb
  refine ⟨set_key [("profiles_started", .nat 0), ("profiles_completed", .nat 0),
      ("profiles_failed", .nat 0)] "error" (.str e), ?_, ?_⟩
  · unfold BatchProcessor.process_session
    simp only [herr]
  · rfl

/-- Witness for C8: a callback that always raises; `session_ended` is
reported exactly once, with the error marker "boom" in the stats. -/
theorem c8_witness :
    (BatchProcessor.process_session
      (some fun _ => Except.error "boom") { id := "s1" }).length = 1 ∧
    ∃ st, BatchProcessor.process_session
        (some fun _ => Except.error "boom") { id := "s1" } = [("s1", st)] ∧
      get_key st "error" = some (.str "boom") := by
  have h := c8_session_ended_once (some fun _ => Except.error "boom") { id := "s1" }
  exact ⟨h.1, h.2.2 _ "boom" rfl rfl⟩

/-- C9 evidence: `BatchProcessor.__init__` constructs its own fresh
`StateMachine()` (initial state `inactive`) instead of sharing the Brain's,
despite the adjacent "Using shared state machine" comment
(`batch_processor.py`, line 43), so the guard on line 109 consults the
wrong machine.  Concretely: the Brain's state machine is in
`waiting_for_active_hours` (not `inactive`), one new valid URL is added,
and `_check_and_activate` is still triggered — refuting the claimed
"if and only if ... the state of the Scheduler's StateMachine is INACTIVE
at that moment". -/
theorem c9_activation_check_eval :
    (StateMachine.get_current_state
      ((( StateMachine.init .inactive 0).transition .waiting_for_active_hours
        "System activated due to pending profiles" none 1).2.1) ≠ .inactive) ∧
    (BatchProcessor.add_profiles
      { brain_sm := ((StateMachine.init .inactive 0).transition .waiting_for_active_hours
          "System activated due to pending profiles" none 1).2.1,
        own_sm := StateMachine.init .inactive 0,
        queue := [] }
      ["https://www.linkedin.com/in/alice"] false "tester" 5).1.added =
      ["https://www.linkedin.com/in/alice"] ∧
    (BatchProcessor.add_profiles
      { brain_sm := ((StateMachine.init .inactive 0).transition .waiting_for_active_hours
          "System activated due to pending profiles" none 1).2.1,
        own_sm := StateMachine.init .inactive 0,
        queue := [] }
      ["https://www.linkedin.com/in/alice"] false "tester" 5).2.2.2 = true := by
  decide
